import Mathlib

/-!
Verification of the `async-result-ext` library (src/lib.rs).

The library defines a trait `AsyncResultExt<T, E>` implemented for
`Result<T, E>`, providing eight asynchronous combinators:
`async_map`, `async_and_then`, `async_map_or`, `async_map_or_else`,
`async_map_err`, `async_inspect`, `async_inspect_err`, `async_is_ok_and`.

Shallow embedding: the Rust `Result<T, E>` enum becomes the inductive
`Result T E` below.  A caller-supplied asynchronous closure
`F: FnOnce(T) -> Fut, Fut: Future<Output = U>` is embedded as a Kleisli
arrow `T → M U` for an arbitrary monad `M`; `.await` becomes monadic
bind.  Each combinator body is a direct transcription of the `match` in
the Rust source.  Instantiating `M := Id` gives the pure value-level
semantics; instantiating `M := StateM Nat` with counting wrappers
(`tick` below) makes the number of invocations of the caller's closure
observable; instantiating `M := Except P` models a caller closure that
may raise (panic/abort), letting us check that the combinators introduce
no failure path of their own and neither catch nor transform the
caller's.
-/

namespace AsyncResultExt

/-- Embedding of Rust `Result<T, E>`: `ok` is `Ok` / the spec's
`Success`, `err` is `Err` / the spec's `Failure`. -/
inductive Result (T E : Type) where
  | ok : T → Result T E
  | err : E → Result T E
  deriving DecidableEq

/-- Embedding of `async_map` (src/lib.rs lines 111–120):
`Ok(value) => Ok(op(value).await), Err(err) => Err(err)`. -/
def Result.async_map {T E U : Type} {M : Type → Type} [Monad M]
    (self : Result T E) (op : T → M U) : M (Result U E) :=
  match self with
  | .ok value => do let u ← op value; pure (.ok u)
  | .err e => pure (.err e)

/-- Embedding of `async_and_then` (src/lib.rs lines 122–131):
`Ok(value) => op(value).await, Err(err) => Err(err)`. -/
def Result.async_and_then {T E U : Type} {M : Type → Type} [Monad M]
    (self : Result T E) (op : T → M (Result U E)) : M (Result U E) :=
  match self with
  | .ok value => op value
  | .err e => pure (.err e)

/-- Embedding of `async_map_or` (src/lib.rs lines 133–142):
`Ok(value) => op(value).await, Err(_) => default`. -/
def Result.async_map_or {T E U : Type} {M : Type → Type} [Monad M]
    (self : Result T E) (default : U) (op : T → M U) : M U :=
  match self with
  | .ok value => op value
  | .err _ => pure default

/-- Embedding of `async_map_or_else` (src/lib.rs lines 143–154):
`Ok(value) => op(value).await, Err(err) => default(err).await`. -/
def Result.async_map_or_else {T E U : Type} {M : Type → Type} [Monad M]
    (self : Result T E) (default : E → M U) (op : T → M U) : M U :=
  match self with
  | .ok value => op value
  | .err e => default e

/-- Embedding of `async_map_err` (src/lib.rs lines 156–165):
`Ok(value) => Ok(value), Err(err) => Err(op(err).await)`. -/
def Result.async_map_err {T E O : Type} {M : Type → Type} [Monad M]
    (self : Result T E) (op : E → M O) : M (Result T O) :=
  match self with
  | .ok value => pure (.ok value)
  | .err e => do let o ← op e; pure (.err o)

/-- Embedding of `async_inspect` (src/lib.rs lines 167–176):
`if let Ok(ref value) = self { op(value).await; } self`.  The Rust
closure takes `&T` and returns `Future<Output = ()>`; by-reference
access is immaterial in the pure embedding, so `op : T → M Unit`. -/
def Result.async_inspect {T E : Type} {M : Type → Type} [Monad M]
    (self : Result T E) (op : T → M Unit) : M (Result T E) := do
  match self with
  | .ok value => op value
  | .err _ => pure ()
  pure self

/-- Embedding of `async_inspect_err` (src/lib.rs lines 178–187):
`if let Err(ref err) = self { op(err).await; } self`. -/
def Result.async_inspect_err {T E : Type} {M : Type → Type} [Monad M]
    (self : Result T E) (op : E → M Unit) : M (Result T E) := do
  match self with
  | .ok _ => pure ()
  | .err e => op e
  pure self

/-- Embedding of `async_is_ok_and` (src/lib.rs lines 189–200):
`Err(_) => false, Ok(v) => op(v).await`. -/
def Result.async_is_ok_and {T E : Type} {M : Type → Type} [Monad M]
    (self : Result T E) (op : T → M Bool) : M Bool :=
  match self with
  | .err _ => pure false
  | .ok v => op v

/-- Instrumented monad: a state monad whose `Nat` state counts how many
times the caller-supplied closure has been invoked. -/
abbrev CountM := StateM Nat

/-- Wraps a pure function as a `CountM` Kleisli arrow that bumps the
invocation counter each time it is called. -/
def tick {α β : Type} (f : α → β) : α → CountM β :=
  fun a => do modify (· + 1); pure (f a)

/-- Counting side-effect closure for the inspect combinators: records
the invocation, returns `()`. -/
def tickUnit {α : Type} : α → CountM Unit :=
  fun _ => modify (· + 1)

/-- Instrumented monad with two independent invocation counters, used
for `async_map_or_else`, which takes two caller-supplied closures. -/
abbrev Count2M := StateM (Nat × Nat)

/-- Wraps a pure function as a `Count2M` arrow bumping the first
counter. -/
def tickFst {α β : Type} (f : α → β) : α → Count2M β :=
  fun a => do modify (fun p => (p.1 + 1, p.2)); pure (f a)

/-- Wraps a pure function as a `Count2M` arrow bumping the second
counter. -/
def tickSnd {α β : Type} (f : α → β) : α → Count2M β :=
  fun a => do modify (fun p => (p.1, p.2 + 1)); pure (f a)

/-! ## Claim theorems

Value-level behaviour is stated in the counting monad `CountM`: running
a combinator with a `tick`-instrumented closure from counter `0`
returns both the produced value and the exact number of times the
caller's closure was invoked, so one equation settles both the result
and the (non-)invocation part of a claim.  Pure-value forms in `Id` are
added where a claim speaks directly of returned values. -/

/-- Claim C1: `async_map` on `ok v` returns `ok (f v)` (the awaited
result of `f`, invoked exactly once, wrapped as success); on `err e` it
returns `err e` unchanged and never invokes `f` (counter stays `0`).
The `Id` forms restate the returned values for pure closures. -/
theorem async_map_spec {T E U : Type} (v : T) (e : E) (f : T → U) :
    ((Result.ok v : Result T E).async_map (tick f)).run 0 = (Result.ok (f v), 1) ∧
    ((Result.err e : Result T E).async_map (tick f)).run 0 = (Result.err e, 0) ∧
    (Result.ok v : Result T E).async_map (M := Id) f = Result.ok (f v) ∧
    (Result.err e : Result T E).async_map (M := Id) f = Result.err e :=
  ⟨rfl, rfl, rfl, rfl⟩

/-- Claim C2: `async_and_then` on `ok v` returns the awaited `f v`
directly, with no extra `ok` wrapping (the produced value is exactly
`f v`, whether that is itself `ok` or `err`); on `err e` it returns
`err e` unchanged and never invokes `f`. -/
theorem async_and_then_spec {T E U : Type} (v : T) (e : E) (f : T → Result U E) :
    ((Result.ok v : Result T E).async_and_then (tick f)).run 0 = (f v, 1) ∧
    ((Result.err e : Result T E).async_and_then (tick f)).run 0 = (Result.err e, 0) ∧
    (Result.ok v : Result T E).async_and_then (M := Id) f = f v ∧
    (Result.err e : Result T E).async_and_then (M := Id) f = Result.err e :=
  ⟨rfl, rfl, rfl, rfl⟩

/-- Claim C3: `async_map_err` on `ok v` returns `ok v` unchanged and
never invokes `f` (counter stays `0`); on `err e` it returns
`err (f e)` — the awaited result of `f`, invoked exactly once, wrapped
as failure. -/
theorem async_map_err_spec {T E O : Type} (v : T) (e : E) (f : E → O) :
    ((Result.ok v : Result T E).async_map_err (tick f)).run 0 = (Result.ok v, 0) ∧
    ((Result.err e : Result T E).async_map_err (tick f)).run 0 = (Result.err (f e), 1) ∧
    (Result.ok v : Result T E).async_map_err (M := Id) f = Result.ok v ∧
    (Result.err e : Result T E).async_map_err (M := Id) f = Result.err (f e) :=
  ⟨rfl, rfl, rfl, rfl⟩

/-- Claim C4: `async_map_or` on `ok v` returns the awaited `f v`
(invoked exactly once); on `err e` it returns exactly the
eagerly-supplied default `d`, and `f` is never applied (counter stays
`0`). -/
theorem async_map_or_spec {T E U : Type} (v : T) (e : E) (d : U) (f : T → U) :
    ((Result.ok v : Result T E).async_map_or d (tick f)).run 0 = (f v, 1) ∧
    ((Result.err e : Result T E).async_map_or d (tick f)).run 0 = (d, 0) ∧
    (Result.ok v : Result T E).async_map_or (M := Id) d f = f v ∧
    (Result.err e : Result T E).async_map_or (M := Id) d f = d :=
  ⟨rfl, rfl, rfl, rfl⟩

/-- Claim C5: `async_map_or_else` on `ok v` returns the awaited
`op v`; on `err e` it returns the awaited result of the
default-producing closure applied to the error value, `dflt e`. -/
theorem async_map_or_else_spec {T E U : Type} (v : T) (e : E) (dflt : E → U) (op : T → U) :
    (Result.ok v : Result T E).async_map_or_else (M := Id) dflt op = op v ∧
    (Result.err e : Result T E).async_map_or_else (M := Id) dflt op = dflt e :=
  ⟨rfl, rfl⟩

/-- Claim C6: `async_inspect` and `async_inspect_err` always return the
receiver outcome itself, same variant and same payload; the
side-effect closure is invoked exactly once on the matching branch
(success for `async_inspect`, failure for `async_inspect_err`), never
on the other branch, and its `Unit` output is discarded. -/
theorem async_inspect_spec {T E : Type} (v : T) (e : E) :
    ((Result.ok v : Result T E).async_inspect tickUnit).run 0 = (Result.ok v, 1) ∧
    ((Result.err e : Result T E).async_inspect tickUnit).run 0 = (Result.err e, 0) ∧
    ((Result.ok v : Result T E).async_inspect_err tickUnit).run 0 = (Result.ok v, 0) ∧
    ((Result.err e : Result T E).async_inspect_err tickUnit).run 0 = (Result.err e, 1) :=
  ⟨rfl, rfl, rfl, rfl⟩

/-- Claim C7: `async_is_ok_and` returns `false` on every `err e`
whatever closure `f` is supplied (which is never invoked there); on
`ok v` it returns exactly the boolean `f v` produced by awaiting the
closure. -/
theorem async_is_ok_and_spec {T E : Type} (v : T) (e : E) (f : T → Bool) :
    ((Result.ok v : Result T E).async_is_ok_and (tick f)).run 0 = (f v, 1) ∧
    ((Result.err e : Result T E).async_is_ok_and (tick f)).run 0 = (false, 0) ∧
    (Result.ok v : Result T E).async_is_ok_and (M := Id) f = f v ∧
    (Result.err e : Result T E).async_is_ok_and (M := Id) f = false :=
  ⟨rfl, rfl, rfl, rfl⟩

/-- Claim C8: every one of the eight operations invokes the
caller-supplied closure at most once per call, and only on its
documented branch; no operation invokes a closure on both branches.
Running each combinator with counting closures from counter `0` shows
the counter ends at `1` on the documented branch and at `0` on the
other; for `async_map_or_else`, which takes two closures, independent
counters show `op` fires exactly once on success with the
default-producer untouched, and symmetrically on failure. -/
theorem at_most_once_spec {T E U O : Type} (v : T) (e : E) (d : U)
    (f : T → U) (g : T → Result U E) (dl : E → U) (me : E → O) (pb : T → Bool) :
    ((Result.ok v : Result T E).async_map (tick f)).run 0 = (Result.ok (f v), 1) ∧
    ((Result.err e : Result T E).async_map (tick f)).run 0 = (Result.err e, 0) ∧
    ((Result.ok v : Result T E).async_and_then (tick g)).run 0 = (g v, 1) ∧
    ((Result.err e : Result T E).async_and_then (tick g)).run 0 = (Result.err e, 0) ∧
    ((Result.ok v : Result T E).async_map_or d (tick f)).run 0 = (f v, 1) ∧
    ((Result.err e : Result T E).async_map_or d (tick f)).run 0 = (d, 0) ∧
    ((Result.ok v : Result T E).async_map_or_else (tickSnd dl) (tickFst f)).run (0, 0)
      = (f v, (1, 0)) ∧
    ((Result.err e : Result T E).async_map_or_else (tickSnd dl) (tickFst f)).run (0, 0)
      = (dl e, (0, 1)) ∧
    ((Result.ok v : Result T E).async_map_err (tick me)).run 0 = (Result.ok v, 0) ∧
    ((Result.err e : Result T E).async_map_err (tick me)).run 0 = (Result.err (me e), 1) ∧
    ((Result.ok v : Result T E).async_inspect tickUnit).run 0 = (Result.ok v, 1) ∧
    ((Result.err e : Result T E).async_inspect tickUnit).run 0 = (Result.err e, 0) ∧
    ((Result.ok v : Result T E).async_inspect_err tickUnit).run 0 = (Result.ok v, 0) ∧
    ((Result.err e : Result T E).async_inspect_err tickUnit).run 0 = (Result.err e, 1) ∧
    ((Result.ok v : Result T E).async_is_ok_and (tick pb)).run 0 = (pb v, 1) ∧
    ((Result.err e : Result T E).async_is_ok_and (tick pb)).run 0 = (false, 0) :=
  ⟨rfl, rfl, rfl, rfl, rfl, rfl, rfl, rfl, rfl, rfl, rfl, rfl, rfl, rfl, rfl, rfl⟩

/-- Claim C9: no operation introduces a failure path of its own.
Modelling a caller closure that may raise as a Kleisli arrow into
`Except P`: on the branch that does not invoke the closure every
operation returns `Except.ok` of its documented value (it is total on
its own); on the invoking branch the call's outcome is exactly
`Except.map`/identity of the closure's outcome, so the operation raises
precisely when the caller's closure raises, propagating the very same
exception value `p` uncaught and untransformed (`Except.map` keeps
`Except.error p` fixed). -/
theorem no_new_failure_spec {T E U O P : Type} (v : T) (e : E) (d : U)
    (op : T → Except P U) (g : T → Except P (Result U E)) (dl : E → Except P U)
    (me : E → Except P O) (iu : T → Except P Unit) (ju : E → Except P Unit)
    (pb : T → Except P Bool) :
    (Result.err e : Result T E).async_map op = Except.ok (Result.err e) ∧
    (Result.ok v : Result T E).async_map op = (op v).map Result.ok ∧
    (Result.err e : Result T E).async_and_then g = Except.ok (Result.err e) ∧
    (Result.ok v : Result T E).async_and_then g = g v ∧
    (Result.err e : Result T E).async_map_or d op = Except.ok d ∧
    (Result.ok v : Result T E).async_map_or d op = op v ∧
    (Result.err e : Result T E).async_map_or_else dl op = dl e ∧
    (Result.ok v : Result T E).async_map_or_else dl op = op v ∧
    (Result.ok v : Result T E).async_map_err me = Except.ok (Result.ok v) ∧
    (Result.err e : Result T E).async_map_err me = (me e).map Result.err ∧
    (Result.err e : Result T E).async_inspect iu = Except.ok (Result.err e) ∧
    (Result.ok v : Result T E).async_inspect iu = (iu v).map (fun _ => Result.ok v) ∧
    (Result.ok v : Result T E).async_inspect_err ju = Except.ok (Result.ok v) ∧
    (Result.err e : Result T E).async_inspect_err ju = (ju e).map (fun _ => Result.err e) ∧
    (Result.err e : Result T E).async_is_ok_and pb = Except.ok false ∧
    (Result.ok v : Result T E).async_is_ok_and pb = pb v := by
  refine ⟨rfl, ?_, rfl, rfl, rfl, rfl, rfl, rfl, rfl, ?_, rfl, ?_, rfl, ?_, rfl, rfl⟩
  · cases h : op v <;>
      simp [Result.async_map, h, Except.map, bind, Except.bind, pure, Except.pure]
  · cases h : me e <;>
      simp [Result.async_map_err, h, Except.map, bind, Except.bind, pure, Except.pure]
  · cases h : iu v <;>
      simp [Result.async_inspect, h, Except.map, bind, Except.bind, pure, Except.pure]
  · cases h : ju e <;>
      simp [Result.async_inspect_err, h, Except.map, bind, Except.bind, pure, Except.pure]

/-- Claim C10: every operation is deterministic.  In the pure model
(`Id`, pure caller closures), two calls of any of the eight operations
on equal receivers, with pointwise-equal caller closures and equal
eager defaults, produce equal outputs. -/
theorem deterministic_spec {T E U O : Type} (r r' : Result T E)
    (f f' : T → U) (g g' : T → Result U E) (d d' : U) (dl dl' : E → U)
    (me me' : E → O) (i i' : T → Unit) (j j' : E → Unit) (pb pb' : T → Bool)
    (hr : r = r') (hf : ∀ x, f x = f' x) (hg : ∀ x, g x = g' x) (hd : d = d')
    (hdl : ∀ x, dl x = dl' x) (hme : ∀ x, me x = me' x) (hpb : ∀ x, pb x = pb' x) :
    r.async_map (M := Id) f = r'.async_map (M := Id) f' ∧
    r.async_and_then (M := Id) g = r'.async_and_then (M := Id) g' ∧
    r.async_map_or (M := Id) d f = r'.async_map_or (M := Id) d' f' ∧
    r.async_map_or_else (M := Id) dl f = r'.async_map_or_else (M := Id) dl' f' ∧
    r.async_map_err (M := Id) me = r'.async_map_err (M := Id) me' ∧
    r.async_inspect (M := Id) i = r'.async_inspect (M := Id) i' ∧
    r.async_inspect_err (M := Id) j = r'.async_inspect_err (M := Id) j' ∧
    r.async_is_ok_and (M := Id) pb = r'.async_is_ok_and (M := Id) pb' := by
  subst hr; subst hd
  refine ⟨?_, ?_, ?_, ?_, ?_, ?_, ?_, ?_⟩ <;> cases r <;>
    simp [Result.async_map, Result.async_and_then, Result.async_map_or,
      Result.async_map_or_else, Result.async_map_err, Result.async_inspect,
      Result.async_inspect_err, Result.async_is_ok_and,
      hf, hg, hdl, hme, hpb]

/-- Witness for claim C10: the determinism theorem applied at concrete
inputs, every hypothesis discharged at the call site. -/
theorem deterministic_spec_witness :
    (Result.ok 1 : Result Nat Bool).async_map (M := Id) (fun x => x + 1)
      = (Result.ok 1 : Result Nat Bool).async_map (M := Id) (fun x => x + 1) ∧
    (Result.ok 1 : Result Nat Bool).async_and_then (M := Id) (fun x => Result.ok x)
      = (Result.ok 1 : Result Nat Bool).async_and_then (M := Id) (fun x => Result.ok x) ∧
    (Result.ok 1 : Result Nat Bool).async_map_or (M := Id) 0 (fun x => x + 1)
      = (Result.ok 1 : Result Nat Bool).async_map_or (M := Id) 0 (fun x => x + 1) ∧
    (Result.ok 1 : Result Nat Bool).async_map_or_else (M := Id) (fun _ => 5) (fun x => x + 1)
      = (Result.ok 1 : Result Nat Bool).async_map_or_else (M := Id) (fun _ => 5) (fun x => x + 1) ∧
    (Result.ok 1 : Result Nat Bool).async_map_err (M := Id) (fun _ => 7)
      = (Result.ok 1 : Result Nat Bool).async_map_err (M := Id) (fun _ => 7) ∧
    (Result.ok 1 : Result Nat Bool).async_inspect (M := Id) (fun _ => ())
      = (Result.ok 1 : Result Nat Bool).async_inspect (M := Id) (fun _ => ()) ∧
    (Result.ok 1 : Result Nat Bool).async_inspect_err (M := Id) (fun _ => ())
      = (Result.ok 1 : Result Nat Bool).async_inspect_err (M := Id) (fun _ => ()) ∧
    (Result.ok 1 : Result Nat Bool).async_is_ok_and (M := Id) (fun _ => true)
      = (Result.ok 1 : Result Nat Bool).async_is_ok_and (M := Id) (fun _ => true) :=
  deterministic_spec (Result.ok 1) (Result.ok 1)
    (fun x => x + 1) (fun x => x + 1) (fun x => Result.ok x) (fun x => Result.ok x)
    0 0 (fun _ => 5) (fun _ => 5) (fun _ => 7) (fun _ => 7)
    (fun _ => ()) (fun _ => ()) (fun _ => ()) (fun _ => ())
    (fun _ => true) (fun _ => true)
    rfl (fun _ => rfl) (fun _ => rfl) rfl (fun _ => rfl) (fun _ => rfl) (fun _ => rfl)

end AsyncResultExt
